import Mathlib

set_option maxHeartbeats 2000000

/-!
Verification development for the Azure DevOps MCP server repository.

The definitions below are a shallow embedding of the credential and
request-dispatch core of the repository:

* `src/azure-devops-client.ts` — the module-level credential provider
  (`getAuthHeader`, `getAccessToken`, the singleton `cachedToken` /
  `tokenPromise` state) and the catalog methods whose error handling the
  design document constrains (`getTeamMembers`, `getPullRequestById`,
  `queryWorkItems`, `getWorkItems`, `searchIdentities`,
  `getAdvancedSecurityAlertDetails`);
* `src/functions/mcp.ts` — the HTTP-function transport adapter
  (`getToolDefinitions`, `executeToolInternal`, the `tools/call` handler);
* `src/index.ts` — the stdio transport adapter (the `tools` array and the
  `CallToolRequestSchema` handler's switch).

The runtime is single-threaded cooperative (Node.js): the synchronous
prefix of `getAccessToken` — from its entry to the first `await` inside
the async IIFE assigned to `tokenPromise` — runs atomically, and the
continuation after the upstream exchange resolves runs atomically.  The
model therefore splits `getAccessToken` into an atomic entry step
(`getAccessTokenEnter`) and an atomic completion step
(`exchangeComplete`); upstream exchanges are identified by the counter
`nextExchangeId`, and a caller's eventual value is `resolveOutcome`
applied to an oracle mapping each exchange id to its result.

Times are integer milliseconds since the epoch, as in JavaScript
`Date.now()` / `Date` comparison.
-/

/-- One entry of the module-level token cache of `azure-devops-client.ts`:
`cachedToken = { token: string; expiresOn: Date }`, with the `Date`
represented as integer milliseconds since the epoch. -/
structure TokenCacheEntry where
  token : String
  expiresOn : Int
deriving Repr, DecidableEq

/-- The module-level mutable state of `azure-devops-client.ts` lines 10–16:
`USE_PAT` together with the `AZURE_DEVOPS_PAT` value it is derived from
(`usePat = some pat` iff the environment variable is set), the
`sharedCredential` singleton (tracked only by presence), `cachedToken`,
and `tokenPromise`.  An in-flight promise is identified by the id of the
upstream exchange it wraps; `nextExchangeId` numbers successive upstream
exchanges so that "exactly one exchange" is expressible. -/
structure AuthState where
  usePat : Option String
  sharedCredential : Bool
  cachedToken : Option TokenCacheEntry
  tokenPromise : Option Nat
  nextExchangeId : Nat
deriving Repr, DecidableEq

/-- What a single call to `getAccessToken` does during its atomic
synchronous prefix (lines 28–78 of `azure-devops-client.ts`, up to the
first `await`). -/
inductive EnterOutcome where
  /-- `if (USE_PAT) return process.env.AZURE_DEVOPS_PAT!` (line 31). -/
  | staticTok (pat : String)
  /-- valid cache hit: `return cachedToken.token` (line 36). -/
  | cacheHit (token : String)
  /-- `if (tokenPromise) return tokenPromise` (line 41): the caller joins
  the in-flight exchange with the given id. -/
  | awaitPromise (id : Nat)
  /-- the caller initiated a new upstream exchange with the given id
  (lines 45–77). -/
  | startPromise (id : Nat)
deriving Repr, DecidableEq

/-- The cache-validity test of line 35:
`cachedToken && cachedToken.expiresOn > new Date(Date.now() + 60000)`. -/
def cacheIsValid (now : Int) (c : Option TokenCacheEntry) : Bool :=
  match c with
  | some e => decide (e.expiresOn > now + 60000)
  | none => false

/-- Cache-miss continuation of `getAccessToken` (lines 39–77): join the
in-flight promise when one exists, otherwise become the initiator — set
`tokenPromise`, create the `sharedCredential` singleton if absent, and
start a fresh upstream exchange. -/
def enterOnMiss (st : AuthState) : EnterOutcome × AuthState :=
  match st.tokenPromise with
  | some id => (.awaitPromise id, st)
  | none =>
      (.startPromise st.nextExchangeId,
        { st with
            sharedCredential := true
            tokenPromise := some st.nextExchangeId
            nextExchangeId := st.nextExchangeId + 1 })

/-- The atomic synchronous prefix of one `getAccessToken` call
(`azure-devops-client.ts` lines 28–78): PAT short-circuit, then the cache
check of line 35, then the in-flight promise check, then initiation. -/
def getAccessTokenEnter (now : Int) (st : AuthState) : EnterOutcome × AuthState :=
  match st.usePat with
  | some pat => (.staticTok pat, st)
  | none =>
      match st.cachedToken with
      | some e =>
          if e.expiresOn > now + 60000 then (.cacheHit e.token, st)
          else enterOnMiss st
      | none => enterOnMiss st

/-- Result of one upstream token exchange
(`sharedCredential.getToken(AZURE_DEVOPS_SCOPE)`): success carries the
token and the optional `expiresOnTimestamp`; failure carries the error
message (this also covers the `!tokenResponse` throw of line 60). -/
inductive ExchangeResult where
  | success (token : String) (expiresOnTimestamp : Option Int)
  | failure (message : String)
deriving Repr, DecidableEq

/-- The atomic continuation of the initiator's async IIFE once the
upstream exchange resolves (lines 59–74): on success the cache is
overwritten (defaulting the expiry to one hour when the response has no
timestamp, line 67); in both cases the `finally` of line 72 clears
`tokenPromise`.  `now` is `Date.now()` at completion time. -/
def exchangeComplete (now : Int) (r : ExchangeResult) (st : AuthState) : AuthState :=
  match r with
  | .success tok ts =>
      { st with
          cachedToken := some ⟨tok, ts.getD (now + 3600 * 1000)⟩
          tokenPromise := none }
  | .failure _ => { st with tokenPromise := none }

/-- The value a caller's `getAccessToken` promise eventually settles to,
given an oracle `f` mapping each exchange id to its result: static PAT and
cache hits resolve immediately; joiners and the initiator both settle with
the result of the shared exchange (the initiator returns `tokenPromise`
itself at line 77). -/
def resolveOutcome (o : EnterOutcome) (f : Nat → ExchangeResult) : Except String String :=
  match o with
  | .staticTok pat => .ok pat
  | .cacheHit t => .ok t
  | .awaitPromise id =>
      match f id with
      | .success t _ => .ok t
      | .failure m => .error m
  | .startPromise id =>
      match f id with
      | .success t _ => .ok t
      | .failure m => .error m

/-- `n` consecutive atomic entries into `getAccessToken`, all at time
`now`, with no exchange completion in between: the single-threaded
interleaving of `n` concurrent callers that race during one cache-miss
window. -/
def enterAll (now : Int) : Nat → AuthState → List EnterOutcome × AuthState
  | 0, st => ([], st)
  | n + 1, st =>
      let p := getAccessTokenEnter now st
      let q := enterAll now n p.2
      (p.1 :: q.1, q.2)

/-- A trace of `getAccessToken` entries at the given sequence of times,
with no exchange completion in between. -/
def enterTrace : List Int → AuthState → List EnterOutcome × AuthState
  | [], st => ([], st)
  | now :: rest, st =>
      let p := getAccessTokenEnter now st
      let q := enterTrace rest p.2
      (p.1 :: q.1, q.2)

/-- Result of one outbound HTTP request as observed through axios: `ok`
carries the parsed response body, `err` the thrown error's
`error.response?.status` (absent for network-level failures) and its
message. -/
inductive HttpOutcome (α : Type) where
  | ok (data : α)
  | err (status : Option Nat) (message : String)
deriving Repr, DecidableEq

/-- Response mapping of `AzureDevOpsClient.getTeamMembers`
(`azure-devops-client.ts` lines 448–460): on success return
`response.data.value || []` (the `value` field may be absent); a thrown
error with `error.response?.status === 404` is swallowed into `[]`; every
other error is re-thrown unchanged. -/
def getTeamMembers {α : Type} (resp : HttpOutcome (Option (List α))) : HttpOutcome (List α) :=
  match resp with
  | .ok v => .ok (v.getD [])
  | .err s m => if s = some 404 then .ok [] else .err s m

/-- The `PullRequest` interface of `azure-devops-client.ts` lines 124–141,
with the nested `repository` and `createdBy` objects flattened into their
two fields each. -/
structure PullRequest where
  pullRequestId : Int
  repositoryId : String
  repositoryName : String
  title : String
  description : Option String
  createdByDisplayName : String
  createdByUniqueName : String
  creationDate : String
  status : String
  sourceRefName : String
  targetRefName : String
  isDraft : Option Bool
deriving Repr, DecidableEq

/-- Response mapping of `AzureDevOpsClient.getPullRequestById`
(`azure-devops-client.ts` lines 688–710): the response body is projected
field by field into the `PullRequest` shape; there is no try/catch, so
every thrown error — 404 included — propagates unchanged. -/
def getPullRequestById (resp : HttpOutcome PullRequest) : HttpOutcome PullRequest :=
  match resp with
  | .ok pr =>
      .ok
        { pullRequestId := pr.pullRequestId
          repositoryId := pr.repositoryId
          repositoryName := pr.repositoryName
          title := pr.title
          description := pr.description
          createdByDisplayName := pr.createdByDisplayName
          createdByUniqueName := pr.createdByUniqueName
          creationDate := pr.creationDate
          status := pr.status
          sourceRefName := pr.sourceRefName
          targetRefName := pr.targetRefName
          isDraft := pr.isDraft }
  | .err s m => .err s m

/-- Response mapping of
`AzureDevOpsClient.getAdvancedSecurityAlertDetails`
(`azure-devops-client.ts` lines 1255–1272): on success return
`response.data`; a thrown error with status 404 is swallowed into `null`
(modelled as `none`); every other error is re-thrown unchanged. -/
def getAdvancedSecurityAlertDetails {α : Type} (resp : HttpOutcome α) :
    HttpOutcome (Option α) :=
  match resp with
  | .ok d => .ok (some d)
  | .err s m => if s = some 404 then .ok none else .err s m

/-- The `WorkItem` interface of `azure-devops-client.ts` lines 80–85, with
the open `fields: Record<string, any>` map modelled as an association list
of field name to value string. -/
structure WorkItem where
  id : Int
  rev : Int
  fields : List (String × String)
  url : String
deriving Repr, DecidableEq

/-- One element of the `workItems` array of a WIQL response: a work-item
reference carrying the id that `queryWorkItems` extracts. -/
structure WorkItemRef where
  id : Int
deriving Repr, DecidableEq

/-- `AzureDevOpsClient.getWorkItems` (`azure-devops-client.ts` lines
200–208) with the network abstracted into `fetch`: an empty id list
returns `[]` before any request is issued; otherwise one batch request is
made.  The second component counts the batch HTTP requests issued. -/
def getWorkItems (ids : List Int) (fetch : List Int → List WorkItem) :
    List WorkItem × Nat :=
  if ids = [] then ([], 0) else (fetch ids, 1)

/-- `AzureDevOpsClient.queryWorkItems` (`azure-devops-client.ts` lines
210–222) after its first-stage WIQL request: `workItemRefs` is the
`response.data.workItems` field (absent or a list); if it is absent or
empty the method returns `[]` at line 218, otherwise it extracts the ids
and delegates to `getWorkItems`.  The second component counts the
second-stage batch requests issued. -/
def queryWorkItems (workItemRefs : Option (List WorkItemRef))
    (fetch : List Int → List WorkItem) : List WorkItem × Nat :=
  match workItemRefs with
  | none => ([], 0)
  | some refs =>
      if refs.length = 0 then ([], 0)
      else getWorkItems (refs.map WorkItemRef.id) fetch

/-- The base64 alphabet used by Node's
`Buffer.prototype.toString('base64')`. -/
def base64Chars : List Char :=
  "ABCDEFGHIJKLMNOPQRSTUVWXYZabcdefghijklmnopqrstuvwxyz0123456789+/".data

/-- Character of the base64 alphabet at the given 6-bit index. -/
def base64CharAt (i : Nat) : Char := base64Chars.getD i '?'

/-- Standard base64 of a byte list, three bytes to four output characters,
`=`-padded, as produced by `Buffer.prototype.toString('base64')`. -/
def base64EncodeGroups : List Nat → List Char
  | [] => []
  | [b0] =>
      [base64CharAt (b0 / 4), base64CharAt (b0 % 4 * 16), '=', '=']
  | [b0, b1] =>
      [base64CharAt (b0 / 4), base64CharAt (b0 % 4 * 16 + b1 / 16),
        base64CharAt (b1 % 16 * 4), '=']
  | b0 :: b1 :: b2 :: rest =>
      base64CharAt (b0 / 4) :: base64CharAt (b0 % 4 * 16 + b1 / 16) ::
        base64CharAt (b1 % 16 * 4 + b2 / 64) :: base64CharAt (b2 % 64) ::
        base64EncodeGroups rest

/-- Base64 of a byte list as a string. -/
def base64Encode (bytes : List Nat) : String := ⟨base64EncodeGroups bytes⟩

/-- UTF-8 encoding of one character as bytes (the default encoding of
`Buffer.from` on a string). -/
def utf8EncodeChar (c : Char) : List Nat :=
  let n := c.toNat
  if n < 128 then [n]
  else if n < 2048 then [192 + n / 64, 128 + n % 64]
  else if n < 65536 then [224 + n / 4096, 128 + n / 64 % 64, 128 + n % 64]
  else [240 + n / 262144, 128 + n / 4096 % 64, 128 + n / 64 % 64, 128 + n % 64]

/-- UTF-8 bytes of a string, as produced by `Buffer.from(s)`. -/
def utf8Bytes (s : String) : List Nat :=
  (s.data.map utf8EncodeChar).flatten

/-- `getAuthHeader` of `azure-devops-client.ts` lines 19–26: in PAT mode
return `Basic` followed by the base64 of `:` prepended to the PAT;
otherwise throw. -/
def getAuthHeader (usePat : Option String) : Except String String :=
  match usePat with
  | some pat => .ok ("Basic " ++ base64Encode (utf8Bytes (":" ++ pat)))
  | none => .error "No PAT token available - use getAccessToken for OAuth flow"

/-- The `Authorization` header value installed on the shared axios
instance (`azure-devops-client.ts` line 168, refreshed at line 187):
`USE_PAT ? getAuthHeader() : Bearer <getAccessToken() result>`. -/
def sharedClientAuthHeader (usePat : Option String) (oauthToken : String) :
    Except String String :=
  match usePat with
  | some _ => getAuthHeader usePat
  | none => .ok ("Bearer " ++ oauthToken)

/-- The `Authorization` header that `AzureDevOpsClient.searchIdentities`
(`azure-devops-client.ts` lines 992–1007) sends on its direct `axios.get`:
`Bearer` followed by the raw value returned by `getAccessToken`, bypassing
`getAuthHeader` even in PAT mode. -/
def searchIdentitiesAuthHeader (accessToken : String) : String :=
  "Bearer " ++ accessToken

/-- One selected client invocation of the `executeToolInternal` switch of
`src/functions/mcp.ts`: the `AzureDevOpsClient` method called and the
`args` fields passed to it, in positional order. -/
structure ClientCall where
  method : String
  argNames : List String
deriving Repr, DecidableEq

/-- The case labels of the `executeToolInternal` switch of
`src/functions/mcp.ts` (lines 299–504), in source order, each paired with
the client invocation its branch performs.  A `switch` over distinct
string labels is embedded as ordered association-list lookup. -/
def switchCases : List (String × ClientCall) := [
  ("list_projects", ⟨"getProjects", []⟩),
  ("list_project_teams", ⟨"getTeams", ["project", "mine", "top"]⟩),
  ("list_team_members", ⟨"getTeamMembers", ["project", "team"]⟩),
  ("query_work_items", ⟨"queryWorkItems", ["wiql", "project"]⟩),
  ("get_work_items_by_ids", ⟨"getWorkItems", ["ids", "project"]⟩),
  ("create_work_item", ⟨"createWorkItem", ["project", "workItemType", "title", "description", "additionalFields"]⟩),
  ("update_work_item", ⟨"updateWorkItem", ["project", "id", "fields", "comment"]⟩),
  ("update_work_items_batch", ⟨"updateWorkItemsBatch", ["project", "updates"]⟩),
  ("add_child_work_items", ⟨"addChildWorkItems", ["project", "parentId", "childIds"]⟩),
  ("link_work_items", ⟨"linkWorkItems", ["project", "sourceId", "targetId", "linkType"]⟩),
  ("unlink_work_item", ⟨"unlinkWorkItem", ["project", "workItemId", "relationId"]⟩),
  ("add_artifact_link", ⟨"addArtifactLink", ["project", "workItemId", "artifactUri", "artifactType"]⟩),
  ("link_work_item_to_pull_request", ⟨"linkWorkItemToPullRequest", ["project", "workItemId", "repositoryId", "pullRequestId"]⟩),
  ("add_work_item_comment", ⟨"addWorkItemComment", ["project", "workItemId", "text"]⟩),
  ("get_work_item_comments", ⟨"getWorkItemComments", ["project", "id"]⟩),
  ("get_work_item_revisions", ⟨"getWorkItemRevisions", ["project", "id"]⟩),
  ("list_work_item_types", ⟨"getWorkItemTypes", ["project"]⟩),
  ("get_my_work_items", ⟨"getMyWorkItems", ["project", "assignedToMe"]⟩),
  ("get_work_items_for_iteration", ⟨"getWorkItemsForIteration", ["project", "iterationPath"]⟩),
  ("list_backlogs", ⟨"listBacklogs", ["project", "team"]⟩),
  ("list_backlog_work_items", ⟨"listBacklogWorkItems", ["project", "team", "backlogId"]⟩),
  ("get_query_results", ⟨"getQueryResults", ["project", "queryId"]⟩),
  ("list_repositories", ⟨"getRepositories", ["project"]⟩),
  ("get_repository", ⟨"getRepositoryById", ["project", "repositoryId"]⟩),
  ("list_branches", ⟨"getBranches", ["project", "repositoryId"]⟩),
  ("get_my_branches", ⟨"getMyBranches", ["project", "repositoryId"]⟩),
  ("get_branch", ⟨"getBranchByName", ["project", "repositoryId", "branchName"]⟩),
  ("create_branch", ⟨"createBranch", ["project", "repositoryId", "name", "sourceBranch"]⟩),
  ("list_commits", ⟨"getCommits", ["project", "repositoryId", "top"]⟩),
  ("search_commits", ⟨"searchCommits", ["project", "repositoryId", "searchCriteria", "top"]⟩),
  ("get_file_content", ⟨"getFileContent", ["project", "repositoryId", "path"]⟩),
  ("list_pull_requests", ⟨"getPullRequests", ["project", "repositoryId", "top", "status"]⟩),
  ("list_pull_requests_by_commits", ⟨"listPullRequestsByCommits", ["project", "repositoryId", "commitIds"]⟩),
  ("get_pull_request", ⟨"getPullRequestById", ["project", "repositoryId", "pullRequestId"]⟩),
  ("create_pull_request", ⟨"createPullRequest", ["project", "repositoryId", "sourceBranch", "targetBranch", "title", "description"]⟩),
  ("update_pull_request", ⟨"updatePullRequest", ["project", "repositoryId", "pullRequestId", "updates"]⟩),
  ("update_pull_request_reviewers", ⟨"updatePullRequestReviewers", ["project", "repositoryId", "pullRequestId", "reviewers"]⟩),
  ("list_pull_request_threads", ⟨"listPullRequestThreads", ["project", "repositoryId", "pullRequestId"]⟩),
  ("list_pull_request_thread_comments", ⟨"listPullRequestThreadComments", ["project", "repositoryId", "pullRequestId", "threadId"]⟩),
  ("create_pull_request_thread", ⟨"createPullRequestThread", ["project", "repositoryId", "pullRequestId", "thread"]⟩),
  ("update_pull_request_thread", ⟨"updatePullRequestThread", ["project", "repositoryId", "pullRequestId", "threadId", "updates"]⟩),
  ("reply_to_pull_request_comment", ⟨"replyToPullRequestComment", ["project", "repositoryId", "pullRequestId", "threadId", "comment"]⟩),
  ("get_builds", ⟨"getBuilds", ["project", "definitionId", "top"]⟩),
  ("get_build_status", ⟨"getBuildStatus", ["project", "buildId"]⟩),
  ("get_build_log", ⟨"getBuildLog", ["project", "buildId"]⟩),
  ("get_build_log_by_id", ⟨"getBuildLogById", ["project", "buildId", "logId"]⟩),
  ("get_build_changes", ⟨"getBuildChanges", ["project", "buildId"]⟩),
  ("list_build_definitions", ⟨"getBuildDefinitions", ["project"]⟩),
  ("get_build_definition_revisions", ⟨"getBuildDefinitionRevisions", ["project", "definitionId"]⟩),
  ("list_pipelines", ⟨"getPipelines", ["project"]⟩),
  ("create_pipeline", ⟨"createPipeline", ["project", "name", "configuration"]⟩),
  ("run_pipeline", ⟨"runPipeline", ["project", "pipelineId", "parameters"]⟩),
  ("get_pipeline_run", ⟨"getPipelineRun", ["project", "pipelineId", "runId"]⟩),
  ("list_pipeline_runs", ⟨"listPipelineRuns", ["project", "pipelineId", "top"]⟩),
  ("update_build_stage", ⟨"updateBuildStage", ["project", "buildId", "stageRefName", "state"]⟩),
  ("list_iterations", ⟨"getIterations", ["project"]⟩),
  ("create_iterations", ⟨"createIterations", ["project", "iterations"]⟩),
  ("list_team_iterations", ⟨"getTeamIterations", ["project", "team"]⟩),
  ("assign_iterations", ⟨"assignIterations", ["project", "team", "iterationIds"]⟩),
  ("get_iteration_capacities", ⟨"getIterationCapacities", ["project", "iterationId"]⟩),
  ("get_team_capacity", ⟨"getTeamCapacity", ["project", "team", "iterationId"]⟩),
  ("update_team_capacity", ⟨"updateTeamCapacity", ["project", "team", "iterationId", "capacities"]⟩),
  ("list_areas", ⟨"getAreas", ["project"]⟩),
  ("search_code", ⟨"searchCode", ["searchText", "project", "repository", "top"]⟩),
  ("search_work_items", ⟨"searchWorkItems", ["searchText", "project", "top"]⟩),
  ("search_wiki", ⟨"searchWiki", ["searchText", "project", "wikiIdentifier", "top"]⟩),
  ("get_identity_ids", ⟨"searchIdentities", ["searchFilter"]⟩),
  ("get_current_user", ⟨"getCurrentUser", []⟩),
  ("list_boards", ⟨"getBoards", ["project", "team"]⟩),
  ("list_queries", ⟨"getQueries", ["project"]⟩),
  ("list_wikis", ⟨"getWikis", ["project"]⟩),
  ("get_wiki", ⟨"getWiki", ["project", "wikiIdentifier"]⟩),
  ("list_wiki_pages", ⟨"listWikiPages", ["project", "wikiIdentifier", "path"]⟩),
  ("get_wiki_page", ⟨"getWikiPageContent", ["project", "wikiIdentifier", "path"]⟩),
  ("create_or_update_wiki_page", ⟨"createOrUpdateWikiPage", ["project", "wikiIdentifier", "path", "content", "comment"]⟩),
  ("list_test_plans", ⟨"getTestPlans", ["project"]⟩),
  ("create_test_plan", ⟨"createTestPlan", ["project", "name", "description"]⟩),
  ("list_test_suites", ⟨"listTestSuites", ["project", "planId"]⟩),
  ("create_test_suite", ⟨"createTestSuite", ["project", "planId", "name", "suiteType"]⟩),
  ("add_test_cases_to_suite", ⟨"addTestCasesToSuite", ["project", "planId", "suiteId", "testCaseIds"]⟩),
  ("list_test_cases", ⟨"listTestCases", ["project", "planId", "suiteId"]⟩),
  ("create_test_case", ⟨"createTestCase", ["project", "title", "steps"]⟩),
  ("update_test_case_steps", ⟨"updateTestCaseSteps", ["project", "testCaseId", "steps"]⟩),
  ("get_test_results_from_build", ⟨"getTestResultsFromBuild", ["project", "buildId"]⟩),
  ("get_advanced_security_alerts", ⟨"getAdvancedSecurityAlerts", ["project", "repositoryId", "severity", "state", "top"]⟩),
  ("get_advanced_security_alert_details", ⟨"getAdvancedSecurityAlertDetails", ["project", "repositoryId", "alertId"]⟩)
]

/-- One entry of a tool listing: `{name, description, inputSchema}`, with
the schema's `properties` kept as (property name, declared type) pairs and
its `required` array.  Nested `description` and `items` annotations inside
individual properties are elided; they play no role in any stated
property. -/
structure ToolDef where
  name : String
  description : String
  properties : List (String × String)
  required : List String
deriving Repr, DecidableEq

/-- `getToolDefinitions` of `src/functions/mcp.ts` (lines 203–296): the
tool listing returned by the `tools/list` JSON-RPC method, in source
order. -/
def getToolDefinitions : List ToolDef := [
  ⟨"list_projects", "List all projects in the Azure DevOps organization", [], []⟩,
  ⟨"list_project_teams", "List teams for a project", [("project", "string")], ["project"]⟩,
  ⟨"list_team_members", "List members of a team", [("project", "string"), ("team", "string")], ["project", "team"]⟩,
  ⟨"query_work_items", "Query work items using WIQL", [("project", "string"), ("wiql", "string")], ["project", "wiql"]⟩,
  ⟨"get_work_items_by_ids", "Get work items by their IDs", [("project", "string"), ("ids", "array")], ["project", "ids"]⟩,
  ⟨"create_work_item", "Create a new work item", [("project", "string"), ("workItemType", "string"), ("title", "string"), ("description", "string"), ("additionalFields", "object")], ["project", "workItemType", "title"]⟩,
  ⟨"update_work_item", "Update an existing work item", [("project", "string"), ("id", "number"), ("fields", "object"), ("comment", "string")], ["project", "id", "fields"]⟩,
  ⟨"update_work_items_batch", "Update multiple work items in batch", [("project", "string"), ("updates", "array")], ["project", "updates"]⟩,
  ⟨"add_child_work_items", "Add child work items to a parent", [("project", "string"), ("parentId", "number"), ("childIds", "array")], ["project", "parentId", "childIds"]⟩,
  ⟨"link_work_items", "Link two work items", [("project", "string"), ("sourceId", "number"), ("targetId", "number"), ("linkType", "string")], ["project", "sourceId", "targetId"]⟩,
  ⟨"unlink_work_item", "Remove a link from a work item", [("project", "string"), ("workItemId", "number"), ("relationId", "string")], ["project", "workItemId", "relationId"]⟩,
  ⟨"add_work_item_comment", "Add a comment to a work item", [("project", "string"), ("workItemId", "number"), ("text", "string")], ["project", "workItemId", "text"]⟩,
  ⟨"get_work_item_comments", "Get comments for a work item", [("project", "string"), ("id", "number")], ["project", "id"]⟩,
  ⟨"get_work_item_revisions", "Get revision history for a work item", [("project", "string"), ("id", "number")], ["project", "id"]⟩,
  ⟨"list_work_item_types", "List available work item types", [("project", "string")], ["project"]⟩,
  ⟨"get_my_work_items", "Get work items assigned to or created by current user", [("project", "string"), ("assignedToMe", "boolean")], ["project"]⟩,
  ⟨"get_work_items_for_iteration", "Get work items for a specific iteration", [("project", "string"), ("iterationPath", "string")], ["project", "iterationPath"]⟩,
  ⟨"list_backlogs", "List backlogs for a team", [("project", "string"), ("team", "string")], ["project", "team"]⟩,
  ⟨"list_backlog_work_items", "List work items in a backlog", [("project", "string"), ("team", "string"), ("backlogId", "string")], ["project", "team", "backlogId"]⟩,
  ⟨"get_query_results", "Execute a saved query", [("project", "string"), ("queryId", "string")], ["project", "queryId"]⟩,
  ⟨"list_repositories", "List Git repositories in a project", [("project", "string")], ["project"]⟩,
  ⟨"get_repository", "Get repository details", [("project", "string"), ("repositoryId", "string")], ["project", "repositoryId"]⟩,
  ⟨"list_branches", "List branches in a repository", [("project", "string"), ("repositoryId", "string")], ["project", "repositoryId"]⟩,
  ⟨"get_branch", "Get branch details", [("project", "string"), ("repositoryId", "string"), ("branchName", "string")], ["project", "repositoryId", "branchName"]⟩,
  ⟨"create_branch", "Create a new branch", [("project", "string"), ("repositoryId", "string"), ("name", "string"), ("sourceBranch", "string")], ["project", "repositoryId", "name", "sourceBranch"]⟩,
  ⟨"list_commits", "List commits in a repository", [("project", "string"), ("repositoryId", "string"), ("top", "number")], ["project", "repositoryId"]⟩,
  ⟨"search_commits", "Search commits with criteria", [("project", "string"), ("repositoryId", "string"), ("searchCriteria", "object"), ("top", "number")], ["project", "repositoryId", "searchCriteria"]⟩,
  ⟨"get_file_content", "Get file content from repository", [("project", "string"), ("repositoryId", "string"), ("path", "string")], ["project", "repositoryId", "path"]⟩,
  ⟨"list_pull_requests", "List pull requests", [("project", "string"), ("repositoryId", "string"), ("status", "string"), ("top", "number")], ["project"]⟩,
  ⟨"get_pull_request", "Get pull request details", [("project", "string"), ("repositoryId", "string"), ("pullRequestId", "number")], ["project", "repositoryId", "pullRequestId"]⟩,
  ⟨"create_pull_request", "Create a new pull request", [("project", "string"), ("repositoryId", "string"), ("sourceBranch", "string"), ("targetBranch", "string"), ("title", "string"), ("description", "string")], ["project", "repositoryId", "sourceBranch", "targetBranch", "title"]⟩,
  ⟨"update_pull_request", "Update a pull request", [("project", "string"), ("repositoryId", "string"), ("pullRequestId", "number"), ("updates", "object")], ["project", "repositoryId", "pullRequestId", "updates"]⟩,
  ⟨"update_pull_request_reviewers", "Update PR reviewers", [("project", "string"), ("repositoryId", "string"), ("pullRequestId", "number"), ("reviewers", "array")], ["project", "repositoryId", "pullRequestId", "reviewers"]⟩,
  ⟨"list_pull_request_threads", "List PR comment threads", [("project", "string"), ("repositoryId", "string"), ("pullRequestId", "number")], ["project", "repositoryId", "pullRequestId"]⟩,
  ⟨"create_pull_request_thread", "Create a comment thread on PR", [("project", "string"), ("repositoryId", "string"), ("pullRequestId", "number"), ("thread", "object")], ["project", "repositoryId", "pullRequestId", "thread"]⟩,
  ⟨"reply_to_pull_request_comment", "Reply to a PR comment", [("project", "string"), ("repositoryId", "string"), ("pullRequestId", "number"), ("threadId", "number"), ("comment", "object")], ["project", "repositoryId", "pullRequestId", "threadId", "comment"]⟩,
  ⟨"get_builds", "List builds", [("project", "string"), ("definitionId", "number"), ("top", "number")], ["project"]⟩,
  ⟨"get_build_status", "Get build status", [("project", "string"), ("buildId", "number")], ["project", "buildId"]⟩,
  ⟨"get_build_log", "Get build logs", [("project", "string"), ("buildId", "number")], ["project", "buildId"]⟩,
  ⟨"list_build_definitions", "List build definitions", [("project", "string")], ["project"]⟩,
  ⟨"list_pipelines", "List pipelines", [("project", "string")], ["project"]⟩,
  ⟨"run_pipeline", "Trigger a pipeline run", [("project", "string"), ("pipelineId", "number"), ("parameters", "object")], ["project", "pipelineId"]⟩,
  ⟨"get_pipeline_run", "Get pipeline run details", [("project", "string"), ("pipelineId", "number"), ("runId", "number")], ["project", "pipelineId", "runId"]⟩,
  ⟨"list_pipeline_runs", "List pipeline runs", [("project", "string"), ("pipelineId", "number"), ("top", "number")], ["project", "pipelineId"]⟩,
  ⟨"list_iterations", "List project iterations", [("project", "string")], ["project"]⟩,
  ⟨"list_team_iterations", "List team iterations", [("project", "string"), ("team", "string")], ["project", "team"]⟩,
  ⟨"list_areas", "List project areas", [("project", "string")], ["project"]⟩,
  ⟨"get_team_capacity", "Get team capacity for an iteration", [("project", "string"), ("team", "string"), ("iterationId", "string")], ["project", "team", "iterationId"]⟩,
  ⟨"search_code", "Search code across repositories", [("searchText", "string"), ("project", "string"), ("repository", "string"), ("top", "number")], ["searchText"]⟩,
  ⟨"search_work_items", "Search work items", [("searchText", "string"), ("project", "string"), ("top", "number")], ["searchText"]⟩,
  ⟨"search_wiki", "Search wiki pages", [("searchText", "string"), ("project", "string"), ("wikiIdentifier", "string"), ("top", "number")], ["searchText"]⟩,
  ⟨"get_identity_ids", "Search for user identities", [("searchFilter", "string")], ["searchFilter"]⟩,
  ⟨"get_current_user", "Get current authenticated user info", [], []⟩,
  ⟨"list_boards", "List team boards", [("project", "string"), ("team", "string")], ["project", "team"]⟩,
  ⟨"list_queries", "List saved queries", [("project", "string")], ["project"]⟩,
  ⟨"list_wikis", "List wikis in a project", [("project", "string")], ["project"]⟩,
  ⟨"get_wiki", "Get wiki details", [("project", "string"), ("wikiIdentifier", "string")], ["project", "wikiIdentifier"]⟩,
  ⟨"list_wiki_pages", "List wiki pages", [("project", "string"), ("wikiIdentifier", "string"), ("path", "string")], ["project", "wikiIdentifier"]⟩,
  ⟨"get_wiki_page", "Get wiki page content", [("project", "string"), ("wikiIdentifier", "string"), ("path", "string")], ["project", "wikiIdentifier"]⟩,
  ⟨"create_or_update_wiki_page", "Create or update a wiki page", [("project", "string"), ("wikiIdentifier", "string"), ("path", "string"), ("content", "string"), ("comment", "string")], ["project", "wikiIdentifier", "path", "content"]⟩,
  ⟨"list_test_plans", "List test plans", [("project", "string")], ["project"]⟩,
  ⟨"create_test_plan", "Create a test plan", [("project", "string"), ("name", "string"), ("description", "string")], ["project", "name"]⟩,
  ⟨"list_test_suites", "List test suites in a plan", [("project", "string"), ("planId", "number")], ["project", "planId"]⟩,
  ⟨"list_test_cases", "List test cases in a suite", [("project", "string"), ("planId", "number"), ("suiteId", "number")], ["project", "planId", "suiteId"]⟩,
  ⟨"get_advanced_security_alerts", "Get security alerts for a repository", [("project", "string"), ("repositoryId", "string"), ("severity", "string"), ("state", "string"), ("top", "number")], ["project", "repositoryId"]⟩,
  ⟨"get_advanced_security_alert_details", "Get details of a security alert", [("project", "string"), ("repositoryId", "string"), ("alertId", "string")], ["project", "repositoryId", "alertId"]⟩
]

/-- The `tools` array of `src/index.ts` (lines 31–634): the listing served
by the stdio adapter's `ListToolsRequestSchema` handler, in source
order. -/
def indexToolDefs : List ToolDef := [
  ⟨"list_projects", "List all projects in the Azure DevOps organization", [], []⟩,
  ⟨"list_project_teams", "List teams for a project", [("project", "string"), ("mine", "boolean"), ("top", "number")], ["project"]⟩,
  ⟨"list_team_members", "List members of a team", [("project", "string"), ("team", "string")], ["project", "team"]⟩,
  ⟨"query_work_items", "Query work items using WIQL (Work Item Query Language)", [("project", "string"), ("wiql", "string")], ["project", "wiql"]⟩,
  ⟨"get_work_items_by_ids", "Get work items by their IDs", [("project", "string"), ("ids", "array")], ["project", "ids"]⟩,
  ⟨"create_work_item", "Create a new work item", [("project", "string"), ("workItemType", "string"), ("title", "string"), ("description", "string"), ("additionalFields", "object")], ["project", "workItemType", "title"]⟩,
  ⟨"update_work_item", "Update fields of an existing work item", [("project", "string"), ("id", "number"), ("fields", "object"), ("comment", "string")], ["project", "id", "fields"]⟩,
  ⟨"list_work_item_types", "List work item types available in a project", [("project", "string")], ["project"]⟩,
  ⟨"list_repositories", "List Git repositories in a project", [("project", "string")], ["project"]⟩,
  ⟨"list_branches", "List branches in a repository", [("project", "string"), ("repositoryId", "string")], ["project", "repositoryId"]⟩,
  ⟨"list_commits", "List commits in a repository", [("project", "string"), ("repositoryId", "string"), ("top", "number")], ["project", "repositoryId"]⟩,
  ⟨"get_file_content", "Get content of a file in a repository", [("project", "string"), ("repositoryId", "string"), ("path", "string")], ["project", "repositoryId", "path"]⟩,
  ⟨"list_pull_requests", "List pull requests in a project", [("project", "string"), ("repositoryId", "string"), ("status", "string"), ("top", "number")], ["project"]⟩,
  ⟨"get_pull_request", "Get details of a specific pull request", [("project", "string"), ("repositoryId", "string"), ("pullRequestId", "number")], ["project", "repositoryId", "pullRequestId"]⟩,
  ⟨"create_pull_request", "Create a new pull request", [("project", "string"), ("repositoryId", "string"), ("sourceBranch", "string"), ("targetBranch", "string"), ("title", "string"), ("description", "string")], ["project", "repositoryId", "sourceBranch", "targetBranch", "title"]⟩,
  ⟨"get_builds", "Get recent builds for a project", [("project", "string"), ("definitionId", "number"), ("top", "number")], ["project"]⟩,
  ⟨"list_build_definitions", "List build definitions (pipelines) for a project", [("project", "string")], ["project"]⟩,
  ⟨"list_pipelines", "List YAML pipelines in a project", [("project", "string")], ["project"]⟩,
  ⟨"list_iterations", "List iterations (sprints) for a project", [("project", "string")], ["project"]⟩,
  ⟨"list_team_iterations", "List iterations for a team", [("project", "string"), ("team", "string")], ["project", "team"]⟩,
  ⟨"list_areas", "List areas (classification nodes) in a project", [("project", "string")], ["project"]⟩,
  ⟨"search_code", "Search for code across repositories", [("searchText", "string"), ("project", "string"), ("repository", "string"), ("top", "number")], ["searchText"]⟩,
  ⟨"search_work_items", "Search for work items using text search", [("searchText", "string"), ("project", "string"), ("top", "number")], ["searchText"]⟩,
  ⟨"get_identity_ids", "Search for Azure DevOps identity IDs", [("searchFilter", "string")], ["searchFilter"]⟩,
  ⟨"get_current_user", "Get the currently authenticated user details", [], []⟩,
  ⟨"list_boards", "List boards for a team", [("project", "string"), ("team", "string")], ["project", "team"]⟩,
  ⟨"list_queries", "List saved work item queries", [("project", "string")], ["project"]⟩,
  ⟨"get_work_item_revisions", "Get revision history of a work item", [("project", "string"), ("id", "number")], ["project", "id"]⟩,
  ⟨"get_work_item_comments", "Get comments for a work item", [("project", "string"), ("id", "number")], ["project", "id"]⟩,
  ⟨"list_wikis", "List wikis in a project", [("project", "string")], ["project"]⟩,
  ⟨"get_wiki_page", "Get content of a wiki page", [("project", "string"), ("wikiIdentifier", "string"), ("path", "string")], ["project", "wikiIdentifier"]⟩,
  ⟨"list_test_plans", "List test plans in a project", [("project", "string")], ["project"]⟩
]

/-- The case labels of the `CallToolRequestSchema` handler's switch in
`src/index.ts`, in source order, each paired with the `azureClient` method
its branch invokes (the per-branch argument marshaling and JSON
stringification are elided as Operation Catalog concerns). -/
def indexSwitchCases : List (String × String) := [
  ("list_projects", "getProjects"),
  ("list_project_teams", "getTeams"),
  ("list_team_members", "getTeamMembers"),
  ("query_work_items", "queryWorkItems"),
  ("get_work_items_by_ids", "getWorkItems"),
  ("create_work_item", "createWorkItem"),
  ("update_work_item", "updateWorkItem"),
  ("list_work_item_types", "getWorkItemTypes"),
  ("list_repositories", "getRepositories"),
  ("list_branches", "getBranches"),
  ("list_commits", "getCommits"),
  ("get_file_content", "getFileContent"),
  ("list_pull_requests", "getPullRequests"),
  ("get_pull_request", "getPullRequestById"),
  ("create_pull_request", "createPullRequest"),
  ("get_builds", "getBuilds"),
  ("list_build_definitions", "getBuildDefinitions"),
  ("list_pipelines", "getPipelines"),
  ("list_iterations", "getIterations"),
  ("list_team_iterations", "getTeamIterations"),
  ("list_areas", "getAreas"),
  ("search_code", "searchCode"),
  ("search_work_items", "searchWorkItems"),
  ("get_identity_ids", "searchIdentities"),
  ("get_current_user", "getCurrentUser"),
  ("list_boards", "getBoards"),
  ("list_queries", "getQueries"),
  ("get_work_item_revisions", "getWorkItemRevisions"),
  ("get_work_item_comments", "getWorkItemComments"),
  ("list_wikis", "getWikis"),
  ("get_wiki_page", "getWikiPageContent"),
  ("list_test_plans", "getTestPlans")
]

/-- `executeToolInternal` of `src/functions/mcp.ts` (lines 299–504), with
the selected client call returned as data rather than performed: a known
tool name selects its branch's invocation; the `default` branch throws
`Unknown tool: <name>` (line 501) before any client method is reached. -/
def executeToolInternal (toolName : String) : Except String ClientCall :=
  match switchCases.lookup toolName with
  | some c => .ok c
  | none => .error ("Unknown tool: " ++ toolName)

/-- Response of the `tools/call` branch of the `mcp` HTTP handler
(`src/functions/mcp.ts` lines 163–198): a successful
`executeToolInternal` produces a 200 JSON-RPC result wrapping the call's
output; any thrown error is caught by the handler's catch block and
converted to a JSON-RPC error object with code -32603 — nothing escapes
the handler. -/
inductive McpResponse where
  | result (call : ClientCall)
  | rpcError (code : Int) (message : String)
deriving Repr, DecidableEq

/-- The `tools/call` dispatch boundary of `src/functions/mcp.ts`: run
`executeToolInternal` and normalize, per the handler's try/catch. -/
def mcpToolsCall (toolName : String) : McpResponse :=
  match executeToolInternal toolName with
  | .ok c => .result c
  | .error m => .rpcError (-32603) m

/-- Number of client invocations the `tools/call` handler performs for the
given tool name: exactly the one switch-selected call for a known name,
none when the `default` branch throws. -/
def mcpNetworkCalls (toolName : String) : Nat :=
  match executeToolInternal toolName with
  | .ok _ => 1
  | .error _ => 0

/-- Result shape of the stdio adapter's `CallToolRequestSchema` handler
(`src/index.ts`): a `content` text block, flagged with `isError: true` for
the unknown-tool default branch and for caught exceptions. -/
inductive CallToolResult where
  | content (text : String)
  | errorContent (text : String)
deriving Repr, DecidableEq

/-- The stdio adapter's `CallToolRequestSchema` handler (`src/index.ts`
lines 637–1131), with each known branch's client invocation abstracted
into the oracle `run`: a known name runs its branch inside the handler's
try (a thrown error is caught and rendered as `Error: <message>` with
`isError: true`); an unknown name falls to the `default` branch (lines
1109–1118), which returns `Unknown tool: <name>` with `isError: true`
without invoking any client method. -/
def indexCallTool (name : String) (run : String → Except String String) :
    CallToolResult :=
  match (indexSwitchCases.map Prod.fst).contains name with
  | true =>
      match run name with
      | .ok text => .content text
      | .error m => .errorContent ("Error: " ++ m)
  | false => .errorContent ("Unknown tool: " ++ name)

/-- Number of client invocations the stdio handler performs for the given
tool name: one for a switch-matched name, none for the `default`
branch. -/
def indexNetworkCalls (name : String) : Nat :=
  match (indexSwitchCases.map Prod.fst).contains name with
  | true => 1
  | false => 0

/-- A tool descriptor is well-formed when its description is non-empty and
every name in `required` names a declared property. -/
def toolDefOk (t : ToolDef) : Bool :=
  decide (t.description ≠ "") && t.required.all (fun r => (t.properties.map Prod.fst).contains r)

/-! ## Helper lemmas -/

lemma getAccessTokenEnter_eq_enterOnMiss (now : Int) (st : AuthState)
    (hpat : st.usePat = none) (hmiss : cacheIsValid now st.cachedToken = false) :
    getAccessTokenEnter now st = enterOnMiss st := by
  unfold getAccessTokenEnter
  rw [hpat]
  cases hc : st.cachedToken with
  | none => rfl
  | some e =>
    unfold cacheIsValid at hmiss
    rw [hc] at hmiss
    simp only [decide_eq_false_iff_not] at hmiss
    simp only [hmiss, if_false]

lemma enterOnMiss_join (st : AuthState) (id : Nat) (h : st.tokenPromise = some id) :
    enterOnMiss st = (.awaitPromise id, st) := by
  unfold enterOnMiss
  rw [h]

lemma enterOnMiss_initiate (st : AuthState) (h : st.tokenPromise = none) :
    enterOnMiss st =
      (.startPromise st.nextExchangeId,
        { st with
            sharedCredential := true
            tokenPromise := some st.nextExchangeId
            nextExchangeId := st.nextExchangeId + 1 }) := by
  unfold enterOnMiss
  rw [h]

lemma enterAll_joined (now : Int) (n : Nat) (st : AuthState) (id : Nat)
    (hpat : st.usePat = none) (hmiss : cacheIsValid now st.cachedToken = false)
    (hq : st.tokenPromise = some id) :
    enterAll now n st = (List.replicate n (.awaitPromise id), st) := by
  induction n with
  | zero => rfl
  | succ k ih =>
    have he : getAccessTokenEnter now st = (.awaitPromise id, st) := by
      rw [getAccessTokenEnter_eq_enterOnMiss now st hpat hmiss, enterOnMiss_join st id hq]
    simp [enterAll, he, ih, List.replicate_succ]

lemma resolveOutcome_await_eq_start (id : Nat) (f : Nat → ExchangeResult) :
    resolveOutcome (.awaitPromise id) f = resolveOutcome (.startPromise id) f := by
  cases h : f id <;> simp [resolveOutcome, h]

/-- Claim C1: in interactive mode, for every set of N ≥ 1 concurrent calls to
`getAccessToken` that all observe a cache miss (entering back-to-back in
one cache-miss window, with no exchange in flight at its start), the first
caller starts exactly one upstream exchange (`nextExchangeId` advances by
exactly one), the other N−1 join it, and every caller resolves to the same
value as the initiator — the result of that one exchange, success or
failure. -/
theorem singleFlightInvariant (now : Int) (n : Nat) (st : AuthState)
    (hpat : st.usePat = none)
    (hmiss : cacheIsValid now st.cachedToken = false)
    (hidle : st.tokenPromise = none) :
    (enterAll now (n + 1) st).1 =
      EnterOutcome.startPromise st.nextExchangeId ::
        List.replicate n (EnterOutcome.awaitPromise st.nextExchangeId)
    ∧ (enterAll now (n + 1) st).2.nextExchangeId = st.nextExchangeId + 1
    ∧ ∀ f : Nat → ExchangeResult, ∀ o ∈ (enterAll now (n + 1) st).1,
        resolveOutcome o f = resolveOutcome (.startPromise st.nextExchangeId) f := by
  have he : getAccessTokenEnter now st =
      (.startPromise st.nextExchangeId,
        { st with
            sharedCredential := true
            tokenPromise := some st.nextExchangeId
            nextExchangeId := st.nextExchangeId + 1 }) := by
    rw [getAccessTokenEnter_eq_enterOnMiss now st hpat hmiss,
      enterOnMiss_initiate st hidle]
  have hrest := enterAll_joined now n
      { st with
          sharedCredential := true
          tokenPromise := some st.nextExchangeId
          nextExchangeId := st.nextExchangeId + 1 }
      st.nextExchangeId hpat hmiss rfl
  have hall : enterAll now (n + 1) st =
      (EnterOutcome.startPromise st.nextExchangeId ::
        List.replicate n (EnterOutcome.awaitPromise st.nextExchangeId),
        { st with
            sharedCredential := true
            tokenPromise := some st.nextExchangeId
            nextExchangeId := st.nextExchangeId + 1 }) := by
    simp [enterAll, he, hrest]
  refine ⟨by rw [hall], by rw [hall], ?_⟩
  intro f o ho
  rw [hall] at ho
  rcases List.mem_cons.1 ho with h1 | h2
  · rw [h1]
  · rw [List.eq_of_mem_replicate h2]
    exact resolveOutcome_await_eq_start st.nextExchangeId f

/-- Claim C7: if the upstream exchange fails, the in-flight `tokenPromise` is
cleared by the `finally`, the cached token is left unchanged, the
initiator and every joined caller all settle with that same failure, and
a subsequent `getAccessToken` call that still misses the cache becomes
the initiator of a fresh exchange with a new id. -/
theorem authFailurePropagation (now tc now3 : Int) (n : Nat) (st : AuthState)
    (e : String)
    (hpat : st.usePat = none)
    (hmiss : cacheIsValid now st.cachedToken = false)
    (hmiss3 : cacheIsValid now3 st.cachedToken = false)
    (hidle : st.tokenPromise = none) :
    (exchangeComplete tc (.failure e) (enterAll now (n + 1) st).2).tokenPromise = none
    ∧ (exchangeComplete tc (.failure e) (enterAll now (n + 1) st).2).cachedToken
        = st.cachedToken
    ∧ (∀ f : Nat → ExchangeResult, f st.nextExchangeId = .failure e →
        ∀ o ∈ (enterAll now (n + 1) st).1, resolveOutcome o f = .error e)
    ∧ (getAccessTokenEnter now3
          (exchangeComplete tc (.failure e) (enterAll now (n + 1) st).2)).1
        = .startPromise (st.nextExchangeId + 1)
    ∧ st.nextExchangeId + 1 ≠ st.nextExchangeId := by
  have he : getAccessTokenEnter now st =
      (.startPromise st.nextExchangeId,
        { st with
            sharedCredential := true
            tokenPromise := some st.nextExchangeId
            nextExchangeId := st.nextExchangeId + 1 }) := by
    rw [getAccessTokenEnter_eq_enterOnMiss now st hpat hmiss,
      enterOnMiss_initiate st hidle]
  have hrest := enterAll_joined now n
      { st with
          sharedCredential := true
          tokenPromise := some st.nextExchangeId
          nextExchangeId := st.nextExchangeId + 1 }
      st.nextExchangeId hpat hmiss rfl
  have hall : enterAll now (n + 1) st =
      (EnterOutcome.startPromise st.nextExchangeId ::
        List.replicate n (EnterOutcome.awaitPromise st.nextExchangeId),
        { st with
            sharedCredential := true
            tokenPromise := some st.nextExchangeId
            nextExchangeId := st.nextExchangeId + 1 }) := by
    simp [enterAll, he, hrest]
  refine ⟨by rw [hall]; rfl, by rw [hall]; rfl, ?_, ?_, by omega⟩
  · intro f hf o ho
    rw [hall] at ho
    rcases List.mem_cons.1 ho with h1 | h2
    · rw [h1]
      simp [resolveOutcome, hf]
    · rw [List.eq_of_mem_replicate h2]
      simp [resolveOutcome, hf]
  · rw [hall]
    have hstep : getAccessTokenEnter now3
        (exchangeComplete tc (.failure e)
          { st with
              sharedCredential := true
              tokenPromise := some st.nextExchangeId
              nextExchangeId := st.nextExchangeId + 1 }) =
        enterOnMiss (exchangeComplete tc (.failure e)
          { st with
              sharedCredential := true
              tokenPromise := some st.nextExchangeId
              nextExchangeId := st.nextExchangeId + 1 }) :=
      getAccessTokenEnter_eq_enterOnMiss now3 _ hpat hmiss3
    rw [hstep, enterOnMiss_initiate _ rfl]
    simp [exchangeComplete]

/-- Claim C3: with no acquisition in flight, a cached token expiring `d` ms
after `now + 60000` is returned immediately with no state change, while
one expiring at or before `now + 60000` makes the caller initiate a fresh
acquisition. -/
theorem cacheValidityBoundary (now d : Int) (tok : String) (st : AuthState)
    (hpat : st.usePat = none) (hidle : st.tokenPromise = none) :
    (d > 60000 →
      getAccessTokenEnter now { st with cachedToken := some ⟨tok, now + d⟩ } =
        (.cacheHit tok, { st with cachedToken := some ⟨tok, now + d⟩ }))
    ∧ (d ≤ 60000 →
      (getAccessTokenEnter now { st with cachedToken := some ⟨tok, now + d⟩ }).1 =
        .startPromise st.nextExchangeId) := by
  constructor
  · intro hd
    unfold getAccessTokenEnter
    rw [hpat]
    simp only []
    rw [if_pos (by omega)]
  · intro hd
    unfold getAccessTokenEnter
    rw [hpat]
    simp only []
    rw [if_neg (by omega)]
    simp [enterOnMiss, hidle]


lemma basic_ne_bearer (t u : String) : "Basic " ++ t ≠ "Bearer " ++ u := by
  intro h
  have h2 := congrArg String.data h
  simp only [String.data_append] at h2
  have ha : ("Basic ".data ++ t.data).get? 1 = some 'a' := by
    rw [List.get?_append (by decide)]
    rfl
  have hb : ("Bearer ".data ++ u.data).get? 1 = some 'e' := by
    rw [List.get?_append (by decide)]
    rfl
  rw [h2, hb] at ha
  simp at ha

/-- Claim C6: with a static secret configured (`USE_PAT` true), every
`getAccessToken` call over any trace of call times returns the secret
immediately, the credential state is never mutated, no upstream exchange
is ever started (`nextExchangeId` never advances), every caller resolves
to the secret regardless of any exchange oracle, and the shared client's
authorization header is `getAuthHeader`'s static encoding, independent of
any OAuth token. -/
theorem modeExclusivity (pat : String) (st : AuthState) (times : List Int)
    (h : st.usePat = some pat) :
    (enterTrace times st).1 = times.map (fun _ => EnterOutcome.staticTok pat)
    ∧ (enterTrace times st).2 = st
    ∧ (enterTrace times st).2.nextExchangeId = st.nextExchangeId
    ∧ (∀ f : Nat → ExchangeResult, ∀ o ∈ (enterTrace times st).1,
        resolveOutcome o f = .ok pat)
    ∧ (∀ t : String, sharedClientAuthHeader st.usePat t = getAuthHeader (some pat)) := by
  have key : (enterTrace times st).1 = times.map (fun _ => EnterOutcome.staticTok pat)
      ∧ (enterTrace times st).2 = st := by
    induction times with
    | nil => exact ⟨rfl, rfl⟩
    | cons now rest ih =>
      have he : getAccessTokenEnter now st = (.staticTok pat, st) := by
        unfold getAccessTokenEnter
        rw [h]
      simp [enterTrace, he, ih]
  refine ⟨key.1, key.2, by rw [key.2], ?_, ?_⟩
  · intro f o ho
    rw [key.1] at ho
    rcases List.mem_map.1 ho with ⟨x, _, hx⟩
    rw [← hx]
    rfl
  · intro t
    rw [h]
    rfl

/-- Claim C10: in static-token mode, the shared axios client's authorization
header is `Basic` followed by the base64 of `:` prepended to the secret,
for any OAuth token argument, while `searchIdentities` sends `Bearer`
followed by the raw secret (the value `getAccessToken` returns in PAT
mode); the two header values are never equal. -/
theorem staticModeHeaderEncodings (pat oauthToken : String) (now : Int)
    (st : AuthState) (h : st.usePat = some pat) :
    sharedClientAuthHeader st.usePat oauthToken =
      .ok ("Basic " ++ base64Encode (utf8Bytes (":" ++ pat)))
    ∧ (∀ f : Nat → ExchangeResult,
        resolveOutcome (getAccessTokenEnter now st).1 f = .ok pat)
    ∧ searchIdentitiesAuthHeader pat = "Bearer " ++ pat
    ∧ (∀ hdr : String,
        sharedClientAuthHeader st.usePat oauthToken = .ok hdr →
          hdr ≠ searchIdentitiesAuthHeader pat) := by
  have hshared : sharedClientAuthHeader st.usePat oauthToken =
      .ok ("Basic " ++ base64Encode (utf8Bytes (":" ++ pat))) := by
    rw [h]
    rfl
  refine ⟨hshared, ?_, rfl, ?_⟩
  · intro f
    have he : getAccessTokenEnter now st = (.staticTok pat, st) := by
      unfold getAccessTokenEnter
      rw [h]
    rw [he]
    rfl
  · intro hdr hh
    rw [hshared] at hh
    have : hdr = "Basic " ++ base64Encode (utf8Bytes (":" ++ pat)) := by
      injection hh with hh2
      exact hh2.symm
    rw [this]
    exact basic_ne_bearer _ pat

lemma lookup_eq_none_of_not_mem_keys {β : Type} (l : List (String × β)) (a : String)
    (h : ((l.map Prod.fst).contains a) = false) : l.lookup a = none := by
  induction l with
  | nil => rfl
  | cons p rest ih =>
    simp only [List.map_cons, List.contains_cons, Bool.or_eq_false_iff] at h
    obtain ⟨h1, h2⟩ := h
    simp [List.lookup, h1, ih h2]

/-- Claim C2: for every tool name absent from the dispatcher's registry —
the case labels of `executeToolInternal` for the HTTP-function adapter and
of the `CallToolRequestSchema` switch for the stdio adapter — dispatch
returns the unknown-tool failure (`rpcError -32603` with message
`Unknown tool: <name>`, resp. an `isError` content block with the same
text) as a value rather than an escaping exception, and performs zero
client invocations. -/
theorem unknownToolDispatch (name : String)
    (hmcp : ((switchCases.map Prod.fst).contains name) = false)
    (hstdio : ((indexSwitchCases.map Prod.fst).contains name) = false) :
    mcpToolsCall name = .rpcError (-32603) ("Unknown tool: " ++ name)
    ∧ mcpNetworkCalls name = 0
    ∧ (∀ run : String → Except String String,
        indexCallTool name run = .errorContent ("Unknown tool: " ++ name))
    ∧ indexNetworkCalls name = 0 := by
  have hl : switchCases.lookup name = none := lookup_eq_none_of_not_mem_keys _ _ hmcp
  have he : executeToolInternal name = .error ("Unknown tool: " ++ name) := by
    unfold executeToolInternal
    rw [hl]
  refine ⟨?_, ?_, ?_, ?_⟩
  · unfold mcpToolsCall
    rw [he]
  · unfold mcpNetworkCalls
    rw [he]
  · intro run
    unfold indexCallTool
    rw [hstdio]
  · unfold indexNetworkCalls
    rw [hstdio]

/-- Witness for C2 at the spec's own example input `not_a_real_tool`. -/
theorem unknownToolDispatch_witness :
    mcpToolsCall "not_a_real_tool" =
      .rpcError (-32603) ("Unknown tool: " ++ "not_a_real_tool")
    ∧ mcpNetworkCalls "not_a_real_tool" = 0
    ∧ indexCallTool "not_a_real_tool" (fun s => .ok s) =
        .errorContent ("Unknown tool: " ++ "not_a_real_tool")
    ∧ indexNetworkCalls "not_a_real_tool" = 0 := by
  have h := unknownToolDispatch "not_a_real_tool" rfl rfl
  exact ⟨h.1, h.2.1, h.2.2.1 _, h.2.2.2⟩

/-- Claim C4: a remote 404 on `getTeamMembers` yields the empty list as a
success, a remote 404 on `getPullRequestById` propagates as the same
404 failure, and every non-404 failure is re-raised unchanged by both
methods. -/
theorem notFoundNormalization (s : Option Nat) (m : String)
    (hs : s ≠ some 404) :
    getTeamMembers (α := String) (.err (some 404) m) = .ok []
    ∧ getPullRequestById (.err (some 404) m) = .err (some 404) m
    ∧ getTeamMembers (α := String) (.err s m) = .err s m
    ∧ getPullRequestById (.err s m) = .err s m := by
  refine ⟨rfl, rfl, ?_, rfl⟩
  simp only [getTeamMembers, if_neg hs]

/-- Witness for C4 with a concrete non-404 status. -/
theorem notFoundNormalization_witness :
    getTeamMembers (α := String) (.err (some 404) "nf") = .ok []
    ∧ getPullRequestById (.err (some 404) "nf") = .err (some 404) "nf"
    ∧ getTeamMembers (α := String) (.err (some 500) "nf") = .err (some 500) "nf"
    ∧ getPullRequestById (.err (some 500) "nf") = .err (some 500) "nf" :=
  notFoundNormalization (some 500) "nf" (by decide)

/-- Claim C5: when the first-stage WIQL call of `queryWorkItems` returns
zero work-item reference ids (the `workItems` field absent or empty), the
method returns the empty list having issued zero second-stage batch
requests; `getWorkItems` on an empty id list likewise returns the empty
list with zero batch requests. -/
theorem emptyIdShortCircuit (refs : Option (List WorkItemRef))
    (fetch : List Int → List WorkItem)
    (h : refs = none ∨ refs = some []) :
    queryWorkItems refs fetch = ([], 0)
    ∧ getWorkItems [] fetch = ([], 0) := by
  rcases h with h | h <;> subst h <;> exact ⟨rfl, rfl⟩

/-- Witness for C5 at an empty first-stage reference list. -/
theorem emptyIdShortCircuit_witness :
    queryWorkItems (some []) (fun _ => []) = ([], 0)
    ∧ getWorkItems [] (fun _ => []) = ([], 0) :=
  emptyIdShortCircuit (some []) (fun _ => []) (Or.inr rfl)

/-- Claim C9: `getAdvancedSecurityAlertDetails`, a single-entity lookup,
maps a remote 404 to a `null` success (`.ok none`) instead of a failure —
unlike `getPullRequestById`, which propagates the 404 as a failure. -/
theorem securityAlertNotFoundNull (m : String) :
    getAdvancedSecurityAlertDetails (α := String) (.err (some 404) m) = .ok none
    ∧ getPullRequestById (.err (some 404) m) = .err (some 404) m :=
  ⟨rfl, rfl⟩

/-- Counterexample to claim C8 as stated: `add_artifact_link` is accepted
by the HTTP-function adapter's dispatcher (it is a case label of
`executeToolInternal`) but does not appear in that adapter's tool-listing
output `getToolDefinitions`. -/
theorem toolRegistryGapCounterexample :
    ((switchCases.map Prod.fst).contains "add_artifact_link") = true
    ∧ ((getToolDefinitions.map ToolDef.name).contains "add_artifact_link") = false :=
  ⟨rfl, rfl⟩

/-- Claim C8 (amended): in the stdio adapter every dispatcher-accepted
tool name appears in the tool listing with a non-empty description and
with every required field among the declared properties; in the
HTTP-function adapter that round-trip holds in the listing-to-dispatcher
direction — every listed tool is dispatcher-accepted, has a non-empty
description, and has its required fields among its properties — while
twenty dispatcher-accepted names are absent from the listing. -/
theorem toolRegistryRoundTripAmended :
    (indexSwitchCases.all (fun c =>
        indexToolDefs.any (fun t => t.name == c.1 && toolDefOk t))) = true
    ∧ (getToolDefinitions.all (fun t =>
        toolDefOk t && (switchCases.map Prod.fst).contains t.name)) = true
    ∧ ((switchCases.map Prod.fst).all (fun n =>
        (getToolDefinitions.map ToolDef.name).contains n)) = false :=
  ⟨rfl, rfl, rfl⟩

/-- A concrete interactive-mode credential state: no PAT configured,
empty cache, no in-flight acquisition. -/
def idleInteractiveState : AuthState :=
  { usePat := none
    sharedCredential := false
    cachedToken := none
    tokenPromise := none
    nextExchangeId := 0 }

/-- A concrete static-token credential state with PAT `pat123`. -/
def patState : AuthState :=
  { usePat := some "pat123"
    sharedCredential := false
    cachedToken := none
    tokenPromise := none
    nextExchangeId := 0 }

/-- Witness for C1: three concurrent callers racing on an empty cache. -/
theorem singleFlightInvariant_witness :
    (enterAll 0 3 idleInteractiveState).1 =
      EnterOutcome.startPromise 0 ::
        List.replicate 2 (EnterOutcome.awaitPromise 0)
    ∧ (enterAll 0 3 idleInteractiveState).2.nextExchangeId = 1
    ∧ resolveOutcome (.awaitPromise 0) (fun _ => .success "tok" none) =
        resolveOutcome (.startPromise 0) (fun _ => .success "tok" none) := by
  have h := singleFlightInvariant 0 2 idleInteractiveState rfl rfl rfl
  exact ⟨h.1, h.2.1, h.2.2 (fun _ => .success "tok" none) _ (by decide)⟩

/-- Witness for C3 at expiries 61 and 59 seconds in the future. -/
theorem cacheValidityBoundary_witness :
    getAccessTokenEnter 0
        { idleInteractiveState with cachedToken := some ⟨"tok", 0 + 61000⟩ } =
      (.cacheHit "tok",
        { idleInteractiveState with cachedToken := some ⟨"tok", 0 + 61000⟩ })
    ∧ (getAccessTokenEnter 0
          { idleInteractiveState with cachedToken := some ⟨"tok", 0 + 59000⟩ }).1 =
        .startPromise 0 :=
  ⟨(cacheValidityBoundary 0 61000 "tok" idleInteractiveState rfl rfl).1 (by decide),
    (cacheValidityBoundary 0 59000 "tok" idleInteractiveState rfl rfl).2 (by decide)⟩

/-- Witness for C6: two static-mode calls at different times. -/
theorem modeExclusivity_witness :
    (enterTrace [0, 100000] patState).1 =
      [EnterOutcome.staticTok "pat123", EnterOutcome.staticTok "pat123"]
    ∧ (enterTrace [0, 100000] patState).2 = patState
    ∧ (enterTrace [0, 100000] patState).2.nextExchangeId = 0
    ∧ resolveOutcome (.staticTok "pat123") (fun _ => .failure "x") = .ok "pat123"
    ∧ sharedClientAuthHeader patState.usePat "whatever" =
        getAuthHeader (some "pat123") := by
  have h := modeExclusivity "pat123" patState [0, 100000] rfl
  exact ⟨h.1, h.2.1, h.2.2.1,
    h.2.2.2.1 (fun _ => .failure "x") _ (by decide), h.2.2.2.2 "whatever"⟩

/-- Witness for C7: three racing callers, a failed exchange, and a fresh
attempt afterwards. -/
theorem authFailurePropagation_witness :
    (exchangeComplete 5 (.failure "boom")
        (enterAll 0 3 idleInteractiveState).2).tokenPromise = none
    ∧ (exchangeComplete 5 (.failure "boom")
          (enterAll 0 3 idleInteractiveState).2).cachedToken = none
    ∧ resolveOutcome (.awaitPromise 0) (fun _ => .failure "boom") = .error "boom"
    ∧ (getAccessTokenEnter 10
          (exchangeComplete 5 (.failure "boom")
            (enterAll 0 3 idleInteractiveState).2)).1 = .startPromise 1
    ∧ 0 + 1 ≠ 0 := by
  have h := authFailurePropagation 0 5 10 2 idleInteractiveState "boom" rfl rfl rfl rfl
  exact ⟨h.1, h.2.1, h.2.2.1 (fun _ => .failure "boom") rfl _ (by decide),
    h.2.2.2.1, h.2.2.2.2⟩

/-- Witness for C10 in static mode with PAT `pat123`. -/
theorem staticModeHeaderEncodings_witness :
    sharedClientAuthHeader patState.usePat "oauthTok" =
      .ok ("Basic " ++ base64Encode (utf8Bytes (":" ++ "pat123")))
    ∧ resolveOutcome (getAccessTokenEnter 0 patState).1 (fun _ => .failure "x") =
        .ok "pat123"
    ∧ searchIdentitiesAuthHeader "pat123" = "Bearer " ++ "pat123"
    ∧ ("Basic " ++ base64Encode (utf8Bytes (":" ++ "pat123"))) ≠
        searchIdentitiesAuthHeader "pat123" := by
  have h := staticModeHeaderEncodings "pat123" "oauthTok" 0 patState rfl
  exact ⟨h.1, h.2.1 (fun _ => .failure "x"), h.2.2.1, h.2.2.2 _ h.1⟩
